import Mathlib

/-!
Shallow embedding of `custom_components/hubspace/switch.py` from the
Hubspace-Homeassistant integration, together with the scan duplicated in
`test_night_light_switch.py` and `tests/test_night_light_switch.py`.

Python exceptions (`AttributeError`, `TypeError`) are made explicit: the
bodies of the `try:` blocks are functions into `Except PyErr _`, and the
public functions perform the `except ... : return False` catch. Python
dictionaries appear as association lists, `dict.get` with a `None` default
as an `Option`-valued lookup, and attributes that may be absent or falsy as
`Option` / `Attr` values.
-/

/-- A Python exception class relevant to the `except (AttributeError, TypeError)`
clauses in `switch.py`. -/
inductive PyErr where
  | attributeError
  | typeError
deriving DecidableEq, Repr

/-- A Python attribute slot: the attribute may be absent from the object
(`hasattr` is false / access raises `AttributeError`), present but falsy
(e.g. `None`), or present with a truthy value. -/
inductive Attr (α : Type) where
  | absent : Attr α
  | falsy : Attr α
  | value : α → Attr α
deriving DecidableEq, Repr

/-- The light's `color_mode` feature object; `mode = none` models an object
on which the `.mode` attribute access raises `AttributeError`. -/
structure ColorModeFeature where
  mode : Option String
deriving DecidableEq, Repr

/-- One entry of a function descriptor's `"values"` list: either not a
dictionary (so `value.get("name")` raises), or a dictionary whose optional
`"name"` key is given. -/
inductive ValueEntry where
  | notDict
  | dict (name : Option String)
deriving DecidableEq, Repr

/-- One entry of a light's `functions` list: either not a dictionary (so
`func.get(...)` raises), or a dictionary with an optional `"functionClass"`
key and a `"values"` list (`func.get("values", [])` defaults a missing key
to the empty list). -/
inductive FuncEntry where
  | notDict
  | dict (functionClass : Option String) (values : List ValueEntry)
deriving DecidableEq, Repr

/-- The `aioafero` `Light` resource as used by `switch.py`: its id, its
friendly name, its `color_mode` attribute slot and its `functions`
attribute (`none` models an object without the attribute, whose access
raises `AttributeError`). -/
structure Light where
  id : String
  friendly_name : String
  color_mode : Attr ColorModeFeature
  functions : Option (List FuncEntry)
deriving DecidableEq, Repr

/-- The feature stored in a `Switch` resource's `on` dictionary; a dataclass
value, hence always truthy in Python. `onVal` embeds its Python `on` field
(`on` is reserved in Lean). -/
structure OnFeature where
  onVal : Bool
deriving DecidableEq, Repr

/-- The `aioafero` `Switch` resource as used by `switch.py`: its id and its
`on` dictionary (embedded as `onMap`, since `on` is reserved in Lean)
mapping an instance key (`str | None`) to an `OnFeature`. -/
structure Switch where
  id : String
  onMap : List (Option String × OnFeature)
deriving DecidableEq, Repr

/-- The `HubspaceNightLightSwitch` entity: `__init__` stores the resource
and derives `_attr_name` and `_attr_unique_id` from it. -/
structure HubspaceNightLightSwitch where
  resource : Light
  attr_name : String
  attr_unique_id : String
deriving DecidableEq, Repr

/-- `HubspaceNightLightSwitch.__init__`: the constructor applied by
`make_night_light_entity = partial(HubspaceNightLightSwitch, bridge, light_controller)`. -/
def make_night_light_entity (resource : Light) : HubspaceNightLightSwitch :=
  ⟨resource, resource.friendly_name ++ " Night Light", resource.id ++ "_night_light"⟩

/-- The body of the `try:` block of `HubspaceNightLightSwitch.is_on`:
`hasattr` / falsiness guard, then `self.resource.color_mode.mode == "night-light"`. -/
def nightLightIsOnBody (r : Light) : Except PyErr Bool :=
  match r.color_mode with
  | .absent => .ok false
  | .falsy => .ok false
  | .value cm =>
    match cm.mode with
    | none => .error .attributeError
    | some m => .ok (m == "night-light")

/-- `HubspaceNightLightSwitch.is_on`: the try body with
`except (AttributeError, TypeError): return False`. -/
def HubspaceNightLightSwitch.is_on (e : HubspaceNightLightSwitch) : Bool :=
  match nightLightIsOnBody e.resource with
  | .ok b => b
  | .error _ => false

/-- The inner loop of `has_night_light_capability`: scan a `"values"` list
for an entry whose `"name"` is `"night-light"`; a non-dictionary entry
raises out of the whole construct (`return True` on a hit exits early). -/
def scanValues : List ValueEntry → Except PyErr Bool
  | [] => .ok false
  | .notDict :: _ => .error .attributeError
  | .dict name :: rest =>
    if name == some "night-light" then .ok true else scanValues rest

/-- The outer loop of `has_night_light_capability`: scan the `functions`
list, and for each `"color-mode"` function scan its `"values"`. -/
def scanFuncs : List FuncEntry → Except PyErr Bool
  | [] => .ok false
  | .notDict :: _ => .error .attributeError
  | .dict fc vals :: rest =>
    if fc == some "color-mode" then
      match scanValues vals with
      | .error e => .error e
      | .ok true => .ok true
      | .ok false => scanFuncs rest
    else scanFuncs rest

/-- The body of the `try:` block of `has_night_light_capability`: the
attribute access `light_resource.functions` followed by the two-level scan. -/
def hasNightLightBody (r : Light) : Except PyErr Bool :=
  match r.functions with
  | none => .error .attributeError
  | some fns => scanFuncs fns

/-- `has_night_light_capability` from `async_setup_entry`: the try body with
`except (AttributeError, TypeError): pass` falling through to `return False`. -/
def has_night_light_capability (r : Light) : Bool :=
  match hasNightLightBody r with
  | .ok b => b
  | .error _ => false

/-- A descriptor entry is a dictionary. -/
def ValueEntry.isDict : ValueEntry → Bool
  | .notDict => false
  | .dict _ => true

/-- A functions-list entry is well formed: it is a dictionary and every
entry of its `"values"` list is a dictionary. -/
def FuncEntry.wellFormed : FuncEntry → Bool
  | .notDict => false
  | .dict _ vals => vals.all ValueEntry.isDict

/-- One delegated `bridge.async_request_call(self.controller.set_state, ...)`
invocation: the keyword arguments passed to `set_state`. `color_mode = none`
or `inst = none` means the keyword was not passed at all; `inst` embeds the
`instance` keyword (`instance` is reserved in Lean), whose passed value is
itself a `str | None`. -/
structure SetStateCall where
  device_id : String
  onArg : Bool
  color_mode : Option String
  inst : Option (Option String)
deriving DecidableEq, Repr

/-- The keyword arguments a Home Assistant service call hands to
`async_turn_on` / `async_turn_off` (`**kwargs`); both method bodies ignore
them, so any association list will do. -/
def KwArgs : Type := List (String × String)

/-- `HubspaceNightLightSwitch.async_turn_on`: the sequence of `set_state`
delegations the body performs. -/
def HubspaceNightLightSwitch.async_turn_on
    (e : HubspaceNightLightSwitch) (_kwargs : KwArgs) : List SetStateCall :=
  [⟨e.resource.id, true, some "night-light", none⟩]

/-- `HubspaceNightLightSwitch.async_turn_off`: the sequence of `set_state`
delegations the body performs (revert to white mode, light stays on). -/
def HubspaceNightLightSwitch.async_turn_off
    (e : HubspaceNightLightSwitch) (_kwargs : KwArgs) : List SetStateCall :=
  [⟨e.resource.id, true, some "white", none⟩]

/-- The `HubspaceSwitch` entity: `__init__` stores the resource and the
instance key (embedded as `inst`). -/
structure HubspaceSwitch where
  resource : Switch
  inst : Option String
deriving DecidableEq, Repr

/-- `HubspaceSwitch.is_on`: `self.resource.on.get(self.instance, None)`,
then `feature.on` if the feature is present (an `OnFeature` is always
truthy), else `None`. -/
def HubspaceSwitch.is_on (e : HubspaceSwitch) : Option Bool :=
  match e.resource.onMap.lookup e.inst with
  | some feature => some feature.onVal
  | none => none

/-- `HubspaceSwitch.async_turn_on`: the sequence of `set_state` delegations
the body performs. -/
def HubspaceSwitch.async_turn_on
    (e : HubspaceSwitch) (_kwargs : KwArgs) : List SetStateCall :=
  [⟨e.resource.id, true, none, some e.inst⟩]

/-- `HubspaceSwitch.async_turn_off`: the sequence of `set_state` delegations
the body performs. -/
def HubspaceSwitch.async_turn_off
    (e : HubspaceSwitch) (_kwargs : KwArgs) : List SetStateCall :=
  [⟨e.resource.id, false, none, some e.inst⟩]

/-- `make_entity = partial(HubspaceSwitch, bridge, controller)` applied to a
resource and an instance key. -/
def make_entity (resource : Switch) (inst : Option String) : HubspaceSwitch :=
  ⟨resource, inst⟩

/-- `get_unique_entities` from `async_setup_entry`: one entity per key of
the resource's `on` dictionary, keeping an instance only when it is the sole
key or it is not `None`. -/
def get_unique_entities (hs_resource : Switch) : List HubspaceSwitch :=
  let instances := hs_resource.onMap.map Prod.fst
  (instances.filter fun i => instances.length == 1 || i.isSome).map
    (make_entity hs_resource)

/-- `get_night_light_entities` from `async_setup_entry`: a single
night-light switch when the light supports night-light, else nothing. -/
def get_night_light_entities (light_resource : Light) : List HubspaceNightLightSwitch :=
  if has_night_light_capability light_resource then
    [make_night_light_entity light_resource]
  else []

/-- An entity handed to `async_add_entities`: a plain `HubspaceSwitch` or a
`HubspaceNightLightSwitch`. -/
inductive EntityObj where
  | sw : HubspaceSwitch → EntityObj
  | nl : HubspaceNightLightSwitch → EntityObj
deriving DecidableEq, Repr

/-- The `aioafero` event types referenced by `switch.py`. -/
inductive EventType where
  | RESOURCE_ADDED
  | RESOURCE_UPDATED
  | RESOURCE_DELETED
deriving DecidableEq, Repr

/-- The two controllers `async_setup_entry` touches. -/
inductive ControllerKind where
  | switches
  | lights
deriving DecidableEq, Repr

/-- One `controller.subscribe(..., event_filter=...)` registration;
`unload_registered` records that the returned unsubscribe handle was passed
to `config_entry.async_on_unload`. -/
structure Subscription where
  controller : ControllerKind
  event_filter : EventType
  unload_registered : Bool
deriving DecidableEq, Repr

/-- The externally visible effects of `async_setup_entry`: the argument of
each `async_add_entities` call, in order, and the event-bus subscriptions
it registers, in order. -/
structure SetupResult where
  add_calls : List (List EntityObj)
  subscriptions : List Subscription
deriving DecidableEq, Repr

/-- `async_setup_entry`, applied to the current contents of the switch
controller and of the light controller (in iteration order): the two
accumulation loops, the single `async_add_entities(all_entities)` call, and
the two `RESOURCE_ADDED` subscriptions wrapped in
`config_entry.async_on_unload`. -/
def async_setup_entry (switchResources : List Switch) (lightResources : List Light) :
    SetupResult :=
  let entities := switchResources.foldl (fun acc r => acc ++ get_unique_entities r) []
  let night_light_entities :=
    lightResources.foldl (fun acc r => acc ++ get_night_light_entities r) []
  let all_entities := entities.map EntityObj.sw ++ night_light_entities.map EntityObj.nl
  ⟨[all_entities],
   [⟨.switches, .RESOURCE_ADDED, true⟩, ⟨.lights, .RESOURCE_ADDED, true⟩]⟩

/-- The inner loop of the scan in `tests/test_night_light_switch.py`
(`test_night_light_switch_creation`): fold the flag over the `"values"`
list, `break`-ing once `"night-light"` is found; a non-dictionary entry
raises (the test has no `try`). -/
def testScanValues (acc : Bool) : List ValueEntry → Except PyErr Bool
  | [] => .ok acc
  | .notDict :: _ => .error .attributeError
  | .dict name :: rest =>
    if name == some "night-light" then .ok true
    else testScanValues acc rest

/-- The outer loop of the scan in `tests/test_night_light_switch.py`: visit
every function descriptor (no outer `break`), threading the flag through
the `"color-mode"` ones. -/
def testScanFuncs (acc : Bool) : List FuncEntry → Except PyErr Bool
  | [] => .ok acc
  | .notDict :: _ => .error .attributeError
  | .dict fc vals :: rest =>
    if fc == some "color-mode" then
      match testScanValues acc vals with
      | .error e => .error e
      | .ok acc2 => testScanFuncs acc2 rest
    else testScanFuncs acc rest

/-- The inner loop of the scan in `test_night_light_switch.py`
(`test_night_light_detection`): same as `testScanValues` but with no
`break` — the flag is set and the loop continues. -/
def testScanValuesNoBreak (acc : Bool) : List ValueEntry → Except PyErr Bool
  | [] => .ok acc
  | .notDict :: _ => .error .attributeError
  | .dict name :: rest =>
    testScanValuesNoBreak (acc || name == some "night-light") rest

/-- The outer loop of the scan in `test_night_light_switch.py`: visit every
function descriptor, threading the flag through the `"color-mode"` ones. -/
def testScanFuncsNoBreak (acc : Bool) : List FuncEntry → Except PyErr Bool
  | [] => .ok acc
  | .notDict :: _ => .error .attributeError
  | .dict fc vals :: rest =>
    if fc == some "color-mode" then
      match testScanValuesNoBreak acc vals with
      | .error e => .error e
      | .ok acc2 => testScanFuncsNoBreak acc2 rest
    else testScanFuncsNoBreak acc rest

/-- A `"values"` list contains a dictionary entry named `"night-light"`
(helper characterisation of the inner scans). -/
def valsHasNightLight (vals : List ValueEntry) : Bool :=
  vals.any fun v =>
    match v with
    | .notDict => false
    | .dict nm => nm == some "night-light"

/-- A `functions` list contains a `"color-mode"` dictionary descriptor one
of whose values is named `"night-light"` (helper characterisation of the
outer scans). -/
def fnsHasNightLight (fns : List FuncEntry) : Bool :=
  fns.any fun f =>
    match f with
    | .notDict => false
    | .dict fc vals => fc == some "color-mode" && valsHasNightLight vals

/-- A concrete well-formed functions list with a `"color-mode"` descriptor
offering `"night-light"` (shape of the exhaust-fan fixture data). -/
def c1Fns : List FuncEntry :=
  [FuncEntry.dict (some "power") [],
   FuncEntry.dict (some "color-mode")
     [ValueEntry.dict (some "white"), ValueEntry.dict (some "night-light")]]

/-- A concrete light resource carrying `c1Fns`. -/
def c1Light : Light :=
  ⟨"light-1", "Exhaust Fan", Attr.value ⟨some "white"⟩, some c1Fns⟩

/-- A concrete light resource currently in night-light mode. -/
def c2Light : Light :=
  ⟨"light-2", "Lamp", Attr.value ⟨some "night-light"⟩, some []⟩

/-- A concrete light with night-light capability. -/
def c4LightYes : Light :=
  ⟨"light-4", "Fan Light", Attr.value ⟨some "white"⟩,
   some [FuncEntry.dict (some "color-mode") [ValueEntry.dict (some "night-light")]]⟩

/-- A concrete light without night-light capability. -/
def c4LightNo : Light :=
  ⟨"light-5", "Plain Light", Attr.falsy,
   some [FuncEntry.dict (some "color-mode") [ValueEntry.dict (some "white")]]⟩

/-- A concrete switch resource whose `on` dictionary is empty. -/
def c5Switch : Switch := ⟨"switch-1", []⟩

/-- A concrete switch resource with a single instance that is on. -/
def c5SwitchOn : Switch := ⟨"switch-2", [(some "outlet-1", ⟨true⟩)]⟩

/-- A concrete well-formed functions list for the refinement witness. -/
def c8Fns : List FuncEntry :=
  [FuncEntry.dict (some "toggle") [ValueEntry.dict (some "on")],
   FuncEntry.dict (some "color-mode")
     [ValueEntry.dict (some "night-light"), ValueEntry.dict (some "white")]]

/-- A concrete light resource carrying `c8Fns`. -/
def c8Light : Light :=
  ⟨"light-8", "Bath Fan", Attr.value ⟨some "night-light"⟩, some c8Fns⟩

/-- A malformed light: its `color_mode.mode` access raises and its
`functions` attribute is absent. -/
def c10LightRaises : Light := ⟨"light-10", "Broken", Attr.value ⟨none⟩, none⟩

/-- A malformed light: no `color_mode` attribute, and a non-dictionary
entry in its `functions` list. -/
def c10LightAbsent : Light :=
  ⟨"light-11", "NoAttr", Attr.absent, some [FuncEntry.notDict]⟩

/-- A malformed light: falsy `color_mode`, and a non-dictionary entry in a
`"color-mode"` descriptor's `"values"` list. -/
def c10LightFalsy : Light :=
  ⟨"light-12", "FalsyCM", Attr.falsy,
   some [FuncEntry.dict (some "color-mode") [ValueEntry.notDict]]⟩

lemma scanValues_eq_of_wf (vals : List ValueEntry)
    (h : vals.all ValueEntry.isDict = true) :
    scanValues vals = .ok (valsHasNightLight vals) := by
  induction vals with
  | nil => rfl
  | cons v rest ih =>
    cases v with
    | notDict => simp [ValueEntry.isDict] at h
    | dict nm =>
      simp only [List.all_cons, Bool.and_eq_true, ValueEntry.isDict] at h
      by_cases hnm : (nm == some "night-light") = true
      · simp [scanValues, valsHasNightLight, hnm]
      · simp only [scanValues, valsHasNightLight, List.any_cons, hnm,
          if_false, Bool.false_or]
        exact ih h.2

lemma scanFuncs_eq_of_wf (fns : List FuncEntry)
    (h : fns.all FuncEntry.wellFormed = true) :
    scanFuncs fns = .ok (fnsHasNightLight fns) := by
  induction fns with
  | nil => rfl
  | cons f rest ih =>
    cases f with
    | notDict => simp [FuncEntry.wellFormed] at h
    | dict fc vals =>
      simp only [List.all_cons, Bool.and_eq_true, FuncEntry.wellFormed] at h
      by_cases hfc : (fc == some "color-mode") = true
      · simp only [scanFuncs, hfc, if_true, scanValues_eq_of_wf vals h.1]
        cases hb : valsHasNightLight vals
        · simp [fnsHasNightLight, hfc, hb, ih h.2]
        · simp [fnsHasNightLight, hfc, hb]
      · simp only [scanFuncs, hfc, if_false]
        simp [fnsHasNightLight, hfc, ih h.2]

lemma has_night_light_capability_eq (r : Light) (fns : List FuncEntry)
    (hfns : r.functions = some fns) (hwf : fns.all FuncEntry.wellFormed = true) :
    has_night_light_capability r = fnsHasNightLight fns := by
  simp [has_night_light_capability, hasNightLightBody, hfns,
    scanFuncs_eq_of_wf fns hwf]

lemma valsHasNightLight_iff (vals : List ValueEntry) :
    valsHasNightLight vals = true ↔ ValueEntry.dict (some "night-light") ∈ vals := by
  simp only [valsHasNightLight, List.any_eq_true]
  constructor
  · rintro ⟨v, hv, hp⟩
    cases v with
    | notDict => simp at hp
    | dict nm =>
      simp only [beq_iff_eq] at hp
      exact hp ▸ hv
  · intro hv
    exact ⟨_, hv, by simp⟩

lemma fnsHasNightLight_iff (fns : List FuncEntry) :
    fnsHasNightLight fns = true ↔
      ∃ vals, FuncEntry.dict (some "color-mode") vals ∈ fns ∧
        ValueEntry.dict (some "night-light") ∈ vals := by
  simp only [fnsHasNightLight, List.any_eq_true]
  constructor
  · rintro ⟨f, hf, hp⟩
    cases f with
    | notDict => simp at hp
    | dict fc vals =>
      simp only [Bool.and_eq_true, beq_iff_eq] at hp
      exact ⟨vals, hp.1 ▸ hf, (valsHasNightLight_iff vals).mp hp.2⟩
  · rintro ⟨vals, hf, hv⟩
    exact ⟨_, hf, by simp [(valsHasNightLight_iff vals).mpr hv]⟩

lemma testScanValues_eq_of_wf (vals : List ValueEntry) (acc : Bool)
    (h : vals.all ValueEntry.isDict = true) :
    testScanValues acc vals = .ok (acc || valsHasNightLight vals) := by
  induction vals generalizing acc with
  | nil => simp [testScanValues, valsHasNightLight]
  | cons v rest ih =>
    cases v with
    | notDict => simp [ValueEntry.isDict] at h
    | dict nm =>
      simp only [List.all_cons, Bool.and_eq_true, ValueEntry.isDict] at h
      by_cases hnm : (nm == some "night-light") = true
      · simp [testScanValues, valsHasNightLight, hnm]
      · simp only [testScanValues, valsHasNightLight, List.any_cons, hnm,
          if_false, Bool.false_or]
        exact ih acc h.2

lemma testScanValuesNoBreak_eq_of_wf (vals : List ValueEntry) (acc : Bool)
    (h : vals.all ValueEntry.isDict = true) :
    testScanValuesNoBreak acc vals = .ok (acc || valsHasNightLight vals) := by
  induction vals generalizing acc with
  | nil => simp [testScanValuesNoBreak, valsHasNightLight]
  | cons v rest ih =>
    cases v with
    | notDict => simp [ValueEntry.isDict] at h
    | dict nm =>
      simp only [List.all_cons, Bool.and_eq_true, ValueEntry.isDict] at h
      simp only [testScanValuesNoBreak, valsHasNightLight, List.any_cons]
      rw [ih _ h.2]
      simp [valsHasNightLight, Bool.or_assoc]

lemma testScanFuncs_eq_of_wf (fns : List FuncEntry) (acc : Bool)
    (h : fns.all FuncEntry.wellFormed = true) :
    testScanFuncs acc fns = .ok (acc || fnsHasNightLight fns) := by
  induction fns generalizing acc with
  | nil => simp [testScanFuncs, fnsHasNightLight]
  | cons f rest ih =>
    cases f with
    | notDict => simp [FuncEntry.wellFormed] at h
    | dict fc vals =>
      simp only [List.all_cons, Bool.and_eq_true, FuncEntry.wellFormed] at h
      by_cases hfc : (fc == some "color-mode") = true
      · simp only [testScanFuncs, hfc, if_true,
          testScanValues_eq_of_wf vals acc h.1]
        rw [ih _ h.2]
        simp [fnsHasNightLight, hfc, Bool.or_assoc]
      · simp only [testScanFuncs, hfc, if_false]
        rw [ih _ h.2]
        simp [fnsHasNightLight, hfc]

lemma testScanFuncsNoBreak_eq_of_wf (fns : List FuncEntry) (acc : Bool)
    (h : fns.all FuncEntry.wellFormed = true) :
    testScanFuncsNoBreak acc fns = .ok (acc || fnsHasNightLight fns) := by
  induction fns generalizing acc with
  | nil => simp [testScanFuncsNoBreak, fnsHasNightLight]
  | cons f rest ih =>
    cases f with
    | notDict => simp [FuncEntry.wellFormed] at h
    | dict fc vals =>
      simp only [List.all_cons, Bool.and_eq_true, FuncEntry.wellFormed] at h
      by_cases hfc : (fc == some "color-mode") = true
      · simp only [testScanFuncsNoBreak, hfc, if_true,
          testScanValuesNoBreak_eq_of_wf vals acc h.1]
        rw [ih _ h.2]
        simp [fnsHasNightLight, hfc, Bool.or_assoc]
      · simp only [testScanFuncsNoBreak, hfc, if_false]
        rw [ih _ h.2]
        simp [fnsHasNightLight, hfc]

lemma foldl_append_eq_join {α β : Type} (f : α → List β) (l : List α)
    (acc : List β) :
    l.foldl (fun a r => a ++ f r) acc = acc ++ (l.map f).flatten := by
  induction l generalizing acc with
  | nil => simp
  | cons x xs ih => simp [List.foldl_cons, ih, List.append_assoc]

/-- C1: `has_night_light_capability` returns `True` on a light resource
exactly when its functions list contains a `"color-mode"` descriptor whose
`"values"` list contains an entry named `"night-light"` (stated for the
light resources of the data model, whose functions are lists of
dictionaries of descriptors). -/
theorem claim_C1_capability_iff (r : Light) (fns : List FuncEntry)
    (hfns : r.functions = some fns)
    (hwf : fns.all FuncEntry.wellFormed = true) :
    has_night_light_capability r = true ↔
      ∃ vals, FuncEntry.dict (some "color-mode") vals ∈ fns ∧
        ValueEntry.dict (some "night-light") ∈ vals := by
  rw [has_night_light_capability_eq r fns hfns hwf]
  exact fnsHasNightLight_iff fns

/-- Witness for C1 at the concrete light `c1Light`. -/
theorem claim_C1_capability_iff_witness :
    has_night_light_capability c1Light = true ↔
      ∃ vals, FuncEntry.dict (some "color-mode") vals ∈ c1Fns ∧
        ValueEntry.dict (some "night-light") ∈ vals :=
  claim_C1_capability_iff c1Light c1Fns rfl (by decide)

/-- C2: `HubspaceNightLightSwitch.is_on` is `True` exactly when the
resource has a truthy `color_mode` attribute whose `mode` field equals
`"night-light"`, and `False` in every other case. -/
theorem claim_C2_is_on_iff (e : HubspaceNightLightSwitch) :
    e.is_on = true ↔
      ∃ cm, e.resource.color_mode = Attr.value cm ∧
        cm.mode = some "night-light" := by
  cases hcm : e.resource.color_mode with
  | absent => simp [HubspaceNightLightSwitch.is_on, nightLightIsOnBody, hcm]
  | falsy => simp [HubspaceNightLightSwitch.is_on, nightLightIsOnBody, hcm]
  | value cm =>
    cases hm : cm.mode with
    | none =>
      simp [HubspaceNightLightSwitch.is_on, nightLightIsOnBody, hcm, hm]
    | some m =>
      simp [HubspaceNightLightSwitch.is_on, nightLightIsOnBody, hcm, hm]

/-- Witness for C2 at the concrete light `c2Light`. -/
theorem claim_C2_is_on_iff_witness :
    (make_night_light_entity c2Light).is_on = true ↔
      ∃ cm, (make_night_light_entity c2Light).resource.color_mode = Attr.value cm ∧
        cm.mode = some "night-light" :=
  claim_C2_is_on_iff (make_night_light_entity c2Light)

/-- C3: the night-light switch's `async_turn_on` delegates exactly one
`set_state` call with `device_id`, `on=True`, `color_mode="night-light"`,
and `async_turn_off` exactly one with `device_id`, `on=True`,
`color_mode="white"`; neither depends on the caller-supplied kwargs. -/
theorem claim_C3_night_light_turn_commands (e : HubspaceNightLightSwitch)
    (kwargs kwargs' : KwArgs) :
    e.async_turn_on kwargs = [⟨e.resource.id, true, some "night-light", none⟩] ∧
    e.async_turn_off kwargs = [⟨e.resource.id, true, some "white", none⟩] ∧
    e.async_turn_on kwargs = e.async_turn_on kwargs' ∧
    e.async_turn_off kwargs = e.async_turn_off kwargs' :=
  ⟨rfl, rfl, rfl, rfl⟩

/-- C4: `get_night_light_entities` returns exactly one night-light switch
entity when `has_night_light_capability` holds, and the empty list
otherwise. -/
theorem claim_C4_night_light_entities (r : Light) :
    (has_night_light_capability r = true →
      get_night_light_entities r = [make_night_light_entity r]) ∧
    (has_night_light_capability r = false →
      get_night_light_entities r = []) := by
  constructor <;> intro h <;> simp [get_night_light_entities, h]

/-- Witness for C4 at the concrete lights `c4LightYes` and `c4LightNo`. -/
theorem claim_C4_night_light_entities_witness :
    get_night_light_entities c4LightYes = [make_night_light_entity c4LightYes] ∧
    get_night_light_entities c4LightNo = [] :=
  ⟨(claim_C4_night_light_entities c4LightYes).1 (by decide),
   (claim_C4_night_light_entities c4LightNo).2 (by decide)⟩

/-- C5 counterexample: on a switch resource whose `on` dictionary does not
contain the entity's instance key, `HubspaceSwitch.is_on` returns `None`
(Python `None`), not a boolean. -/
theorem claim_C5_counterexample :
    HubspaceSwitch.is_on ⟨c5Switch, none⟩ = none := rfl

/-- C5 (amended): `HubspaceSwitch.is_on` returns the looked-up feature's
`on` field when the instance key is present in the resource's `on`
dictionary, and `None` when it is absent. -/
theorem claim_C5_is_on_amended (e : HubspaceSwitch) :
    (∀ feature, e.resource.onMap.lookup e.inst = some feature →
      e.is_on = some feature.onVal) ∧
    (e.resource.onMap.lookup e.inst = none → e.is_on = none) := by
  constructor
  · intro f hf
    simp [HubspaceSwitch.is_on, hf]
  · intro hf
    simp [HubspaceSwitch.is_on, hf]

/-- Witness for the amended C5 at the concrete switches `c5SwitchOn` and
`c5Switch`. -/
theorem claim_C5_is_on_amended_witness :
    HubspaceSwitch.is_on ⟨c5SwitchOn, some "outlet-1"⟩ = some true ∧
    HubspaceSwitch.is_on ⟨c5Switch, none⟩ = none :=
  ⟨(claim_C5_is_on_amended ⟨c5SwitchOn, some "outlet-1"⟩).1 ⟨true⟩ rfl,
   (claim_C5_is_on_amended ⟨c5Switch, none⟩).2 rfl⟩

/-- C6: `HubspaceSwitch.async_turn_on` delegates exactly one `set_state`
call with `device_id`, `on=True` and the entity's instance, and
`async_turn_off` exactly one with the same `device_id` and instance and
`on=False`; neither depends on the caller-supplied kwargs. -/
theorem claim_C6_switch_turn_commands (e : HubspaceSwitch)
    (kwargs kwargs' : KwArgs) :
    e.async_turn_on kwargs = [⟨e.resource.id, true, none, some e.inst⟩] ∧
    e.async_turn_off kwargs = [⟨e.resource.id, false, none, some e.inst⟩] ∧
    e.async_turn_on kwargs = e.async_turn_on kwargs' ∧
    e.async_turn_off kwargs = e.async_turn_off kwargs' :=
  ⟨rfl, rfl, rfl, rfl⟩

/-- C7: `async_setup_entry` adds, in a single `async_add_entities` call,
exactly the plain switch entities from `get_unique_entities` over the
switch controller (in order) followed by the night-light entities from
`get_night_light_entities` over the light controller (in order), and then
registers exactly two `RESOURCE_ADDED` subscriptions, one per controller,
each tied to config-entry unload. -/
theorem claim_C7_setup_entry (switchResources : List Switch)
    (lightResources : List Light) :
    (async_setup_entry switchResources lightResources).add_calls =
      [((switchResources.map get_unique_entities).flatten).map EntityObj.sw ++
       ((lightResources.map get_night_light_entities).flatten).map EntityObj.nl] ∧
    (async_setup_entry switchResources lightResources).subscriptions =
      [⟨.switches, .RESOURCE_ADDED, true⟩, ⟨.lights, .RESOURCE_ADDED, true⟩] := by
  constructor
  · simp [async_setup_entry, foldl_append_eq_join]
  · rfl

/-- C8: on a light resource with a well-formed functions list, the
two-level scans duplicated in both test files compute the same boolean as
`has_night_light_capability`. -/
theorem claim_C8_test_scan_agrees (r : Light) (fns : List FuncEntry)
    (hfns : r.functions = some fns)
    (hwf : fns.all FuncEntry.wellFormed = true) :
    testScanFuncs false fns = .ok (has_night_light_capability r) ∧
    testScanFuncsNoBreak false fns = .ok (has_night_light_capability r) := by
  rw [has_night_light_capability_eq r fns hfns hwf]
  constructor
  · rw [testScanFuncs_eq_of_wf fns false hwf]
    simp
  · rw [testScanFuncsNoBreak_eq_of_wf fns false hwf]
    simp

/-- Witness for C8 at the concrete light `c8Light`. -/
theorem claim_C8_test_scan_agrees_witness :
    testScanFuncs false c8Fns = .ok (has_night_light_capability c8Light) ∧
    testScanFuncsNoBreak false c8Fns = .ok (has_night_light_capability c8Light) :=
  claim_C8_test_scan_agrees c8Light c8Fns rfl (by decide)

/-- C9: turning the night-light switch off never powers the light off:
both commands delegate a single `set_state` call with `on=True`, and the
two calls differ only in the `color_mode` argument (`"night-light"` versus
`"white"`). -/
theorem claim_C9_night_light_frame (e : HubspaceNightLightSwitch)
    (kwargs : KwArgs) :
    ∃ cOn cOff : SetStateCall,
      e.async_turn_on kwargs = [cOn] ∧ e.async_turn_off kwargs = [cOff] ∧
      cOn.onArg = true ∧ cOff.onArg = true ∧
      cOn.device_id = cOff.device_id ∧ cOn.inst = cOff.inst ∧
      cOn.color_mode = some "night-light" ∧ cOff.color_mode = some "white" :=
  ⟨_, _, rfl, rfl, rfl, rfl, rfl, rfl, rfl, rfl⟩

/-- C10: `HubspaceNightLightSwitch.is_on` and `has_night_light_capability`
are total on malformed resources: whenever the body of either `try:` block
raises (`AttributeError`/`TypeError`), and in particular when `color_mode`
is absent or falsy or the `functions` attribute is absent, the function
returns `False` instead of propagating the exception. -/
theorem claim_C10_totality (e : HubspaceNightLightSwitch) (r : Light) :
    ((∃ err, nightLightIsOnBody e.resource = .error err) → e.is_on = false) ∧
    (e.resource.color_mode = Attr.absent → e.is_on = false) ∧
    (e.resource.color_mode = Attr.falsy → e.is_on = false) ∧
    ((∃ err, hasNightLightBody r = .error err) →
      has_night_light_capability r = false) ∧
    (r.functions = none → has_night_light_capability r = false) := by
  refine ⟨?_, ?_, ?_, ?_, ?_⟩
  · rintro ⟨err, herr⟩
    simp [HubspaceNightLightSwitch.is_on, herr]
  · intro h
    simp [HubspaceNightLightSwitch.is_on, nightLightIsOnBody, h]
  · intro h
    simp [HubspaceNightLightSwitch.is_on, nightLightIsOnBody, h]
  · rintro ⟨err, herr⟩
    simp [has_night_light_capability, herr]
  · intro h
    simp [has_night_light_capability, hasNightLightBody, h]

/-- Witness for C10 at the concrete malformed lights `c10LightRaises`,
`c10LightAbsent` and `c10LightFalsy`. -/
theorem claim_C10_totality_witness :
    (make_night_light_entity c10LightRaises).is_on = false ∧
    (make_night_light_entity c10LightAbsent).is_on = false ∧
    (make_night_light_entity c10LightFalsy).is_on = false ∧
    has_night_light_capability c10LightAbsent = false ∧
    has_night_light_capability c10LightRaises = false :=
  ⟨(claim_C10_totality (make_night_light_entity c10LightRaises) c10LightRaises).1
      ⟨.attributeError, rfl⟩,
   (claim_C10_totality (make_night_light_entity c10LightAbsent) c10LightAbsent).2.1 rfl,
   (claim_C10_totality (make_night_light_entity c10LightFalsy) c10LightFalsy).2.2.1 rfl,
   (claim_C10_totality (make_night_light_entity c10LightAbsent) c10LightAbsent).2.2.2.1
      ⟨.attributeError, rfl⟩,
   (claim_C10_totality (make_night_light_entity c10LightRaises) c10LightRaises).2.2.2.2 rfl⟩
